import Mathlib

/-!
Verification of the Ingredient-Analyzer browser client (src/script.js and the
unnamed source parts).  The JavaScript is shallowly embedded: string-rewriting
functions (the two markdown-to-HTML converters) are modelled character-list by
character-list, the retry helper becomes a recursion over the remaining attempt
count, and the orchestrating getRecipes functions become state transformers
from an initial UI state and fetch-outcome traces to a final UI state plus an
effect record (fetch counts, loading-state transitions).
-/

set_option maxRecDepth 100000

namespace IngredientAnalyzer

/-! ### Character-list utilities

JavaScript strings are modelled as Lean strings; the rewriting passes work on
the underlying character lists so that everything evaluates by kernel
reduction. -/

/-- Boolean test that `pat` is a prefix of `l` (literal character match). -/
def startsWithL : List Char → List Char → Bool
  | [], _ => true
  | _ :: _, [] => false
  | p :: ps, c :: cs => p == c && startsWithL ps cs

/-- Split `l` at the first occurrence of the literal pattern `pat`, returning
the part before the occurrence and the part after it (the occurrence itself is
dropped).  `none` when `pat` does not occur.  This is the position at which a
JavaScript regex made of literal characters matches first. -/
def splitAtFirst (pat : List Char) : List Char → Option (List Char × List Char)
  | [] => if pat = [] then some ([], []) else none
  | c :: cs =>
    if startsWithL pat (c :: cs) = true then some ([], (c :: cs).drop pat.length)
    else (splitAtFirst pat cs).map (fun p => (c :: p.1, p.2))

/-- Split `l` at the last occurrence of `pat` (via the first occurrence in the
reversed list). -/
def splitAtLast (pat l : List Char) : Option (List Char × List Char) :=
  match splitAtFirst pat.reverse l.reverse with
  | none => none
  | some p => some (p.2.reverse, p.1.reverse)

/-- Boolean substring test: the pattern matches at some position.  Written as
a tail-recursive scan so that concrete evaluation reduces iteratively. -/
def containsL (pat : List Char) : List Char → Bool
  | [] => startsWithL pat []
  | c :: cs => startsWithL pat (c :: cs) || containsL pat cs

/-- Split at every newline, as JavaScript `s.split('\n')` does. -/
def splitLines : List Char → List (List Char)
  | [] => [[]]
  | c :: cs =>
    if c = '\n' then [] :: splitLines cs
    else
      match splitLines cs with
      | [] => [[c]]
      | line :: rest => (c :: line) :: rest

/-- Join lines with newlines, as JavaScript `lines.join('\n')` does. -/
def joinLines : List (List Char) → List Char
  | [] => []
  | l :: ls =>
    match ls with
    | [] => l
    | _ :: _ => l ++ '\n' :: joinLines ls

/-- Apply a per-line transformation, as a JavaScript global multiline
(`gm`) regex replacement whose pattern is anchored with both line anchors
does (the replacement introduces no newline, so the line structure is
preserved). -/
def mapLines (f : List Char → List Char) (l : List Char) : List Char :=
  joinLines ((splitLines l).map f)

/-- JavaScript `String.prototype.trim` (ASCII whitespace model). -/
def jsTrim (l : List Char) : List Char :=
  ((l.dropWhile Char.isWhitespace).reverse.dropWhile Char.isWhitespace).reverse

/-- JavaScript `array.join('')`: plain concatenation. -/
def joinAll : List String → String
  | [] => ""
  | s :: ss => s ++ joinAll ss

/-- Boolean substring test on strings. -/
def substrB (pat s : String) : Bool := containsL pat.data s.data

/-! ### The two markdown-to-HTML converters

`simpleMarkdownToHtml` is src/script.js lines 32-50 (same text in
src/unnamed/part_000 lines 29-47); `markdownToHtml` is src/script.js lines
422-453 (and its identical copy at lines 716-747).  Each `.replace` pass of
the source becomes one Lean pass, applied in the same order. -/

/-- Pass for `/^### (.+)$/gm` of `simpleMarkdownToHtml`: a line starting with
the marker and having a non-empty remainder is rewritten whole. -/
def h3LineS (l : List Char) : List Char :=
  if startsWithL ("### ").data l = true ∧ l.drop 4 ≠ [] then
    ("<h3 class=\"text-xl font-semibold mt-4 mb-2\">").data ++ l.drop 4 ++ ("</h3>").data
  else l

/-- Pass for `/^## (.+)$/gm` of `simpleMarkdownToHtml`. -/
def h2LineS (l : List Char) : List Char :=
  if startsWithL ("## ").data l = true ∧ l.drop 3 ≠ [] then
    ("<h2 class=\"text-2xl font-bold mt-6 mb-3 text-blue-800\">").data ++ l.drop 3 ++ ("</h2>").data
  else l

/-- Pass for `/^# (.+)$/gm` of `simpleMarkdownToHtml`. -/
def h1LineS (l : List Char) : List Char :=
  if startsWithL ("# ").data l = true ∧ l.drop 2 ≠ [] then
    ("<h1 class=\"text-3xl font-extrabold mt-8 mb-4\">").data ++ l.drop 2 ++ ("</h1>").data
  else l

/-- Pass for `/^\* (.+)$/gm` of `simpleMarkdownToHtml`: bullet lines become
list items carrying a class attribute. -/
def liLineS (l : List Char) : List Char :=
  if startsWithL ("* ").data l = true ∧ l.drop 2 ≠ [] then
    ("<li class=\"ml-6\">").data ++ l.drop 2 ++ ("</li>").data
  else l

/-- Pass for `/(<li>.*<\/li>\n?)+/gs` of `simpleMarkdownToHtml`, replacement
`<ul class="list-disc my-2">$&</ul>`.  The pattern requires the literal
four-character text `<li>`.  With the dot-all greedy `.*`, a match runs from
the first literal `<li>` to the last `</li>` occurring after it, plus one
following newline when present, and the `+` finds no further iteration beyond
that point, so at most one replacement happens. -/
def wrapLiRuns (l : List Char) : List Char :=
  match splitAtFirst ("<li>").data l with
  | none => l
  | some pr =>
    match splitAtLast ("</li>").data pr.2 with
    | none => l
    | some mp =>
      match mp.2 with
      | '\n' :: post2 =>
        pr.1 ++ ("<ul class=\"list-disc my-2\">").data ++ ("<li>").data ++ mp.1
          ++ ("</li>").data ++ '\n' :: ("</ul>").data ++ post2
      | _ =>
        pr.1 ++ ("<ul class=\"list-disc my-2\">").data ++ ("<li>").data ++ mp.1
          ++ ("</li>").data ++ ("</ul>").data ++ mp.2

/-- Pass for `/^---$/gm` of `simpleMarkdownToHtml`: only a line that is
exactly the three dashes is replaced. -/
def hrLineS (l : List Char) : List Char :=
  if l = ("---").data then ("<hr class=\"border-t-2 border-gray-200 my-6\"/>").data else l

/-- Non-greedy search for a closing `**`: the shortest run of non-newline
characters (possibly empty, for the `(.*?)` pattern) followed by two stars.
Returns the run and the remainder after the two stars. -/
def starStarClose : List Char → Option (List Char × List Char)
  | [] => none
  | c :: cs =>
    if startsWithL ("**").data (c :: cs) = true then some ([], (c :: cs).drop 2)
    else if c = '\n' then none
    else (starStarClose cs).map (fun p => (c :: p.1, p.2))

/-- As `starStarClose` but for the `(.+?)` pattern: the content must hold at
least one character before the lazy search for the closing stars begins. -/
def starStarCloseP : List Char → Option (List Char × List Char)
  | [] => none
  | c :: cs => if c = '\n' then none else (starStarClose cs).map (fun p => (c :: p.1, p.2))

/-- Non-greedy search for a closing single `*` (content possibly empty). -/
def starClose : List Char → Option (List Char × List Char)
  | [] => none
  | c :: cs =>
    if c = '*' then some ([], cs)
    else if c = '\n' then none
    else (starClose cs).map (fun p => (c :: p.1, p.2))

/-- As `starClose` but requiring at least one content character first. -/
def starCloseP : List Char → Option (List Char × List Char)
  | [] => none
  | c :: cs => if c = '\n' then none else (starClose cs).map (fun p => (c :: p.1, p.2))

/-- Worker for the bold replacement, structurally recursive on a fuel that
starts at the input length: every step consumes at least one character of the
scanned list, so the fuel never runs out. -/
def boldPAux : Nat → List Char → List Char
  | _, [] => []
  | 0, l => l
  | fuel + 1, c :: cs =>
    if startsWithL ("**").data (c :: cs) = true then
      match starStarCloseP ((c :: cs).drop 2) with
      | some p => ("<strong>").data ++ p.1 ++ ("</strong>").data ++ boldPAux fuel p.2
      | none => c :: boldPAux fuel cs
    else c :: boldPAux fuel cs

/-- Global replacement `/\*\*(.+?)\*\*/g` to `<strong>$1</strong>` of
`simpleMarkdownToHtml`.  On failure to close, the scan advances one
character, exactly as the regex engine does. -/
def replaceBoldP (l : List Char) : List Char := boldPAux l.length l

/-- Worker for the empty-content bold replacement (same fuel discipline as
`boldPAux`). -/
def bold0Aux : Nat → List Char → List Char
  | _, [] => []
  | 0, l => l
  | fuel + 1, c :: cs =>
    if startsWithL ("**").data (c :: cs) = true then
      match starStarClose ((c :: cs).drop 2) with
      | some p => ("<strong>").data ++ p.1 ++ ("</strong>").data ++ bold0Aux fuel p.2
      | none => c :: bold0Aux fuel cs
    else c :: bold0Aux fuel cs

/-- Global replacement `/\*\*(.*?)\*\*/g` of `markdownToHtml` (content may be
empty). -/
def replaceBold0 (l : List Char) : List Char := bold0Aux l.length l

/-- Worker for the italic replacement (same fuel discipline as `boldPAux`). -/
def italicPAux : Nat → List Char → List Char
  | _, [] => []
  | 0, l => l
  | fuel + 1, c :: cs =>
    if c = '*' then
      match starCloseP cs with
      | some p => ("<em>").data ++ p.1 ++ ("</em>").data ++ italicPAux fuel p.2
      | none => c :: italicPAux fuel cs
    else c :: italicPAux fuel cs

/-- Global replacement `/\*(.+?)\*/g` to `<em>$1</em>` of
`simpleMarkdownToHtml`. -/
def replaceItalicP (l : List Char) : List Char := italicPAux l.length l

/-- Worker for the empty-content italic replacement (same fuel discipline as
`boldPAux`). -/
def italic0Aux : Nat → List Char → List Char
  | _, [] => []
  | 0, l => l
  | fuel + 1, c :: cs =>
    if c = '*' then
      match starClose cs with
      | some p => ("<em>").data ++ p.1 ++ ("</em>").data ++ italic0Aux fuel p.2
      | none => c :: italic0Aux fuel cs
    else c :: italic0Aux fuel cs

/-- Global replacement `/\*(.*?)\*/g` of `markdownToHtml` (content may be
empty). -/
def replaceItalic0 (l : List Char) : List Char := italic0Aux l.length l

/-- Paragraph pass of `simpleMarkdownToHtml` (lines 47-49): a line whose trim
is non-empty and that does not start with `<` is wrapped in a paragraph
element; all other lines pass through. -/
def paraLineS (l : List Char) : List Char :=
  if jsTrim l ≠ [] ∧ startsWithL ("<").data l = false then
    ("<p class=\"mb-2\">").data ++ l ++ ("</p>").data
  else l

/-- Embedding of `simpleMarkdownToHtml` (src/script.js lines 32-50): the
chained `.replace` passes applied in source order — headings h3, h2, h1, list
items, list-run wrapping, horizontal rules, bold, italic, then the paragraph
pass over the split lines. -/
def simpleMarkdownToHtml (text : String) : String :=
  String.mk (mapLines paraLineS (replaceItalicP (replaceBoldP (mapLines hrLineS
    (wrapLiRuns (mapLines liLineS (mapLines h1LineS (mapLines h2LineS
      (mapLines h3LineS text.data)))))))))

/-- Pass for `/^### (.*$)/gim` of `markdownToHtml` (remainder may be empty). -/
def h3LineM (l : List Char) : List Char :=
  if startsWithL ("### ").data l = true then
    ("<h3 class=\"text-xl font-semibold mt-4 mb-2\">").data ++ l.drop 4 ++ ("</h3>").data
  else l

/-- Pass for `/^## (.*$)/gim` of `markdownToHtml`. -/
def h2LineM (l : List Char) : List Char :=
  if startsWithL ("## ").data l = true then
    ("<h2 class=\"text-2xl font-bold mt-6 mb-3 text-blue-800\">").data ++ l.drop 3 ++ ("</h2>").data
  else l

/-- Pass for `/^# (.*$)/gim` of `markdownToHtml`. -/
def h1LineM (l : List Char) : List Char :=
  if startsWithL ("# ").data l = true then
    ("<h1 class=\"text-3xl font-extrabold mt-8 mb-4 text-gray-900\">").data ++ l.drop 2 ++ ("</h1>").data
  else l

/-- Pass for `/^\* (.*$)/gim` of `markdownToHtml`. -/
def liLineM (l : List Char) : List Char :=
  if startsWithL ("* ").data l = true then
    ("<li class=\"list-disc ml-6\">").data ++ l.drop 2 ++ ("</li>").data
  else l

/-- Pass for `/(<li>.*?<\/li>)/gs` of `markdownToHtml`, replacement
`<ul>$1</ul>`: each literal `<li>` followed (non-greedily, across newlines) by
the nearest literal `</li>` is wrapped individually; scanning resumes after
the replaced text. -/
def wrapLiPairsAux : Nat → List Char → List Char
  | _, [] => []
  | 0, l => l
  | fuel + 1, c :: cs =>
    if startsWithL ("<li>").data (c :: cs) = true then
      match splitAtFirst ("</li>").data ((c :: cs).drop 4) with
      | some p =>
        ("<ul>").data ++ ("<li>").data ++ p.1 ++ ("</li>").data ++ ("</ul>").data
          ++ wrapLiPairsAux fuel p.2
      | none => c :: cs
    else c :: wrapLiPairsAux fuel cs

/-- Entry point for the pair wrapping, with fuel set to the input length (each
step consumes at least one character, so the fuel never runs out). -/
def wrapLiPairs (l : List Char) : List Char := wrapLiPairsAux l.length l

/-- Worker for the adjacent-list merge, with the same fuel discipline as the
other scanners. -/
def mergeUlAux : Nat → List Char → List Char
  | _, [] => []
  | 0, l => l
  | fuel + 1, c :: cs =>
    if startsWithL ("</ul>").data (c :: cs) = true then
      if startsWithL ("<ul>").data
          (((c :: cs).drop 5).dropWhile (fun ch => ch = '\n')) = true then
        mergeUlAux fuel ((((c :: cs).drop 5).dropWhile (fun ch => ch = '\n')).drop 4)
      else c :: mergeUlAux fuel cs
    else c :: mergeUlAux fuel cs

/-- Pass for `/<\/ul>\n*<ul>/g` of `markdownToHtml`: a closing list tag, any
run of newlines, and an opening list tag are deleted together; scanning
resumes after the deleted text. -/
def mergeUl (l : List Char) : List Char := mergeUlAux l.length l

/-- Pass for the rule-marker replacement of `markdownToHtml` (pattern `^---`
with flags gim): the marker has no end anchor, so only the leading three
dashes of a line are replaced and the rest of the line is kept. -/
def hrLineM (l : List Char) : List Char :=
  if startsWithL ("---").data l = true then
    ("<hr class=\"border-t-2 border-gray-200 my-8\"/>").data ++ l.drop 3
  else l

/-- Test for `/<\/?(h[1-3]|ul|hr|div|p)>/i` used by the paragraph pass of
`markdownToHtml`: the line contains an opening or closing tag of one of the
listed names, case-insensitively. -/
def containsBlockTag (l : List Char) : Bool :=
  let low := l.map Char.toLower
  containsL ("<h1>").data low || containsL ("</h1>").data low ||
  containsL ("<h2>").data low || containsL ("</h2>").data low ||
  containsL ("<h3>").data low || containsL ("</h3>").data low ||
  containsL ("<ul>").data low || containsL ("</ul>").data low ||
  containsL ("<hr>").data low || containsL ("</hr>").data low ||
  containsL ("<div>").data low || containsL ("</div>").data low ||
  containsL ("<p>").data low || containsL ("</p>").data low

/-- Paragraph pass of `markdownToHtml` (lines 443-450): a line containing a
recognised block-level tag passes through; otherwise a line with non-empty
trim is wrapped (trimmed) in a bare paragraph element, and an all-whitespace
line becomes empty. -/
def paraLineM (l : List Char) : List Char :=
  if containsBlockTag l = true then l
  else if jsTrim l ≠ [] then ("<p>").data ++ jsTrim l ++ ("</p>").data
  else []

/-- Embedding of `markdownToHtml` (src/script.js lines 422-453): headings,
list items, per-pair list wrapping, adjacent-list merging, horizontal rules,
bold, italic, then trim, split into lines and the paragraph pass. -/
def markdownToHtml (markdown : String) : String :=
  String.mk (mapLines paraLineM (jsTrim (replaceItalic0 (replaceBold0
    (mapLines hrLineM (mergeUl (wrapLiPairs (mapLines liLineM (mapLines h1LineM
      (mapLines h2LineM (mapLines h3LineM markdown.data)))))))))))

/-! ### The retry helper

`withExponentialBackoff` appears three times in the sources: src/script.js
lines 53-63 (delay `Math.pow(2, i) * 1000`), and lines 177-187 and 494-504
(delay `Math.pow(2, i) * 1000 + Math.random() * 1000`).  The control flow is
identical; the embedding takes the attempt outcomes as a trace
`fn : Nat → Except ε α` (the outcome of the i-th invocation) and the random
jitter as a trace `jit : Nat → ℚ` (`Math.random() * 1000` drawn after the
i-th failure; the un-jittered copy is the instance `jit = fun _ => 0`). -/

/-- One run of the `for (let i = 0; i < maxRetries; i++)` loop, recursing on
the number of remaining iterations (`maxRetries - i`); the source's test
`i === maxRetries - 1` is exactly `remaining = 1`.  Result: the value
returned or error thrown (`none` when the loop finishes without either, i.e.
the JavaScript function resolves with `undefined`), the number of invocations
of `fn`, and the list of delays slept in milliseconds. -/
def backoffLoop (fn : Nat → Except ε α) (jit : Nat → ℚ) :
    Nat → Nat → Option (Except ε α) × Nat × List ℚ
  | _, 0 => (none, 0, [])
  | i, 1 =>
    (match fn i with
     | .ok v => (some (.ok v), 1, [])
     | .error e => (some (.error e), 1, []))
  | i, n + 2 =>
    match fn i with
    | .ok v => (some (.ok v), 1, [])
    | .error _ =>
      let rest := backoffLoop fn jit (i + 1) (n + 1)
      (rest.1, rest.2.1 + 1, ((2 : ℚ) ^ i * 1000 + jit i) :: rest.2.2)

/-- Embedding of `withExponentialBackoff(fn, maxRetries)`.  `maxRetries` is an
integer as in JavaScript; a non-positive value skips the loop body. -/
def withExponentialBackoff (fn : Nat → Except ε α) (jit : Nat → ℚ)
    (maxRetries : Int) : Option (Except ε α) × Nat × List ℚ :=
  backoffLoop fn jit 0 maxRetries.toNat

/-! ### Data model for the orchestrators

An HTTP response carries the flag `ok`, the numeric `status`, the
`statusText`, and the JSON value the body parses to (`none` when the body is
not JSON, in which case `response.json()` rejects).  Fields the scripts never
read are not modelled.  A fetch trace `Nat → Except String (HttpResponse β)`
gives the outcome of the i-th invocation of `fetch`: `Except.error msg` is a
rejection (network failure) carrying the error message, and `Except.ok resp`
is any completed HTTP response — including one with a non-2xx status, which
does NOT reject `fetch`. -/

structure HttpResponse (β : Type) where
  ok : Bool
  status : Nat
  statusText : String
  jsonBody : Option β

/-- Response body of the structured analyze endpoint as read by getRecipes in
src/script.js lines 255-258 (`result.success`, `result.ingredients`,
`result.error`).  `ingredients = none` models an absent field; note a present
empty array is truthy in JavaScript. -/
structure AnalyzeResult where
  success : Bool
  ingredients : Option (List String)
  error : Option String

/-- Nested payload `{ analysis: ... }` of the free-text analyze response. -/
structure AnalysisPayload where
  analysis : Option String

/-- Nested `data` object of the free-text analyze response. -/
structure AnalyzeData where
  prompt_analysis : Option AnalysisPayload
  image_analysis : Option AnalysisPayload

/-- Response body of the free-text analyze endpoint as read by getRecipes in
src/script.js lines 108-121 and src/unnamed/part_000 lines 86-94. -/
structure AnalyzeBody where
  success : Bool
  error : Option String
  data : Option AnalyzeData

/-- One recipe object of the recipes response.  The rendering template
(src/script.js lines 315-331) reads only `title` and `ingredients`; the
`instructions` field is carried in the model but never referenced by the
source, which is part of what claim C9 is about. -/
structure Recipe where
  title : String
  ingredients : Option (List String)
  instructions : List String

/-- Response body of the recipes endpoint as read by getRecipes in
src/script.js lines 298-347. -/
structure RecipesResult where
  success : Bool
  recipes : Option (List Recipe)
  total_found : Option Int
  error : Option String

/-- JavaScript `x || fallback` where `x` is an optional string: `undefined`
and the empty string are falsy. -/
def jsOr : Option String → String → String
  | some s, fallback => if s = "" then fallback else s
  | none, fallback => fallback

/-- Truthiness filter for an optional string (empty string is falsy), used to
model chained `a || b || c`. -/
def truthyStr : Option String → Option String
  | some s => if s = "" then none else some s
  | none => none

/-- JavaScript template interpolation of a possibly-undefined number:
`${undefined}` prints the text `undefined`. -/
def jsNumOpt : Option Int → String
  | some n => toString n
  | none => "undefined"

/-- Embedding of the extraction
`result.data?.prompt_analysis?.analysis || result.data?.image_analysis?.analysis || 'No analysis returned'`
(src/script.js lines 116-118; src/unnamed/part_000 lines 89-91). -/
def extractAnalysis (result : AnalyzeBody) : String :=
  match truthyStr ((result.data.bind AnalyzeData.prompt_analysis).bind AnalysisPayload.analysis) with
  | some s => s
  | none =>
    match truthyStr ((result.data.bind AnalyzeData.image_analysis).bind AnalysisPayload.analysis) with
    | some s => s
    | none => "No analysis returned"

/-! ### UI state and effect model

The DOM pieces the scripts mutate: the output region's innerHTML, the submit
control's disabled flag and its label.  The effect record counts the fetch
invocations per endpoint and the loading-state transitions of one
interaction. -/

structure UIState where
  output : String
  buttonDisabled : Bool
  buttonLabel : String

structure InteractionEffects where
  analyzeFetches : Nat
  recipesFetches : Nat
  loadingEntered : Bool
  loadingCleared : Nat

/-- Error block rendered by the catch branch of the first getRecipes variant
(src/script.js lines 125-136), transcribed with the template literal's exact
whitespace. -/
def errorBlockV1 (msg : String) : String :=
  "\n            <div class=\"text-red-600 p-4 bg-red-50 rounded-lg\">\n                <p class=\"font-medium mb-2\">❌ Error: "
    ++ msg ++
    "</p>\n                <p class=\"text-sm\">Troubleshooting tips:</p>\n                <ul class=\"text-sm list-disc ml-4 mt-1\">\n                    <li>Make sure your Vercel backend is deployed</li>\n                    <li>Check that API_URL points to the correct endpoint</li>\n                    <li>Verify CORS is configured correctly in your backend</li>\n                    <li>Check browser console for detailed error messages</li>\n                </ul>\n            </div>\n        "

/-- Validation warning of the first getRecipes variant (src/script.js
line 77). -/
def warnV1 : String :=
  "<p class=\"text-red-600 font-medium\">⚠️ Please enter a prompt or upload an image.</p>"

/-- Embedding of the first getRecipes variant (src/script.js lines 67-142,
the free-text analyze flow with a single bare fetch).  Inputs: the initial
UI state, the raw prompt text, whether a file is selected, and the outcome of
the one analyze fetch.  The FormData built at lines 87-93 only shapes the
request and is not otherwise observable, so it is not modelled.  The
try/catch/finally shape means the catch turns any thrown message into the
error block and the finally always re-enables the button and restores its
label exactly once. -/
def getRecipesV1 (s0 : UIState) (promptRaw : String) (hasImage : Bool)
    (fetchResult : Except String (HttpResponse AnalyzeBody)) :
    UIState × InteractionEffects :=
  let prompt := jsTrim promptRaw.data
  if prompt = [] ∧ hasImage = false then
    (⟨warnV1, s0.buttonDisabled, s0.buttonLabel⟩, ⟨0, 0, false, 0⟩)
  else
    let tryOut : Except String String :=
      match fetchResult with
      | .error e => .error e
      | .ok response =>
        if response.ok = false then
          .error (jsOr (response.jsonBody.bind AnalyzeBody.error)
            ("Server error: " ++ toString response.status ++ " " ++ response.statusText))
        else
          match response.jsonBody with
          | none => .error "Unexpected end of JSON input"
          | some result =>
            if result.success = false then .error (jsOr result.error "Analysis failed")
            else
              .ok ("<div class=\"prose max-w-none\">"
                ++ simpleMarkdownToHtml (extractAnalysis result) ++ "</div>")
    let finalOutput :=
      match tryOut with
      | .ok html => html
      | .error msg => errorBlockV1 msg
    (⟨finalOutput, false, "Get Recipes"⟩, ⟨1, 0, true, 1⟩)

/-- Validation warning of the second getRecipes variant (src/script.js
line 219). -/
def warn2 : String :=
  "<p class=\"text-red-600 font-medium\">Please enter a food prompt or upload an image of ingredients first.</p>"

/-- Error paragraph rendered by the catch branch of the second getRecipes
variant (src/script.js line 355). -/
def errorBlock2 (msg : String) : String :=
  "<p class=\"text-red-600 font-medium\">Sorry, an error occurred: " ++ msg
    ++ ". Please try again.</p>"

/-- Message rendered when the detected ingredient list is empty
(src/script.js line 261). -/
def noIngredientsMsg2 : String :=
  "<p class=\"text-yellow-600\">No ingredients detected. Try a different image or prompt.</p>"

/-- One detected-ingredient list item (src/script.js lines 266-268). -/
def ingItem (ingredient : String) : String :=
  "<li class=\"py-2 px-3 bg-gray-50 rounded\">" ++ ingredient ++ "</li>"

/-- `ingredientsList.map(...).join('')` (src/script.js lines 266-268). -/
def ingredientsHTML (l : List String) : String :=
  joinAll (l.map ingItem)

/-- Output when the recipes array comes back empty (src/script.js lines
304-312), with the template literal's exact whitespace. -/
def noRecipesHTML (ingredientsList : List String) : String :=
  "\n                        <div class=\"space-y-4\">\n                            <h3 class=\"text-xl font-semibold text-gray-800\">Detected Ingredients ("
    ++ toString ingredientsList.length ++
    "):</h3>\n                            <ul class=\"space-y-2\">\n                                "
    ++ ingredientsHTML ingredientsList ++
    "\n                            </ul>\n                            <p class=\"text-yellow-600 font-medium mt-4\">No recipes found matching your ingredients. Try adding more common ingredients!</p>\n                        </div>\n                    "

/-- One rendered recipe card (src/script.js lines 315-331): only the first 8
ingredients are listed (`slice(0, 8)`), a more-count note is added when the
list is longer, the title is shown 1-indexed, and `recipe.instructions` is
never read. -/
def recipeCard (idx : Nat) (recipe : Recipe) : String :=
  let recipeIngredients := recipe.ingredients.getD []
  let ingredientsListHTML :=
    joinAll ((recipeIngredients.take 8).map
      (fun ing => "<li class=\"text-sm text-gray-600\">• " ++ ing ++ "</li>"))
  let moreCount : Nat :=
    if recipeIngredients.length > 8 then recipeIngredients.length - 8 else 0
  "\n                            <div class=\"border border-gray-200 rounded-lg p-4 bg-white shadow-sm\">\n                                <h4 class=\"text-lg font-semibold text-blue-700 mb-2\">"
    ++ toString (idx + 1) ++ ". " ++ recipe.title ++
    "</h4>\n                                <ul class=\"space-y-1\">\n                                    "
    ++ ingredientsListHTML ++
    "\n                                    "
    ++ (if moreCount > 0 then
          "<li class=\"text-sm text-gray-500 italic\">+ " ++ toString moreCount
            ++ " more ingredients</li>"
        else "") ++
    "\n                                </ul>\n                            </div>\n                        "

/-- `recipes.map((recipe, idx) => ...)`: the cards in input order with their
0-based callback index. -/
def cardsFrom (idx : Nat) : List Recipe → List String
  | [] => []
  | r :: rest => recipeCard idx r :: cardsFrom (idx + 1) rest

/-- Output on the full success path (src/script.js lines 333-344), with the
template literal's exact whitespace; `${recipesResult.total_found}` prints
`undefined` when the field is absent. -/
def recipesSuccessHTML (ingredientsList : List String) (recipes : List Recipe)
    (total_found : Option Int) : String :=
  "\n                        <div class=\"space-y-4\">\n                            <h3 class=\"text-xl font-semibold text-gray-800\">Your Ingredients ("
    ++ toString ingredientsList.length ++
    "):</h3>\n                            <ul class=\"space-y-2 mb-4\">\n                                "
    ++ ingredientsHTML ingredientsList ++
    "\n                            </ul>\n                            <h3 class=\"text-xl font-semibold text-green-700\">Top 5 Recipes (from "
    ++ jsNumOpt total_found ++
    " matches):</h3>\n                            <div class=\"space-y-3\">\n                                "
    ++ joinAll (cardsFrom 0 recipes) ++
    "\n                            </div>\n                        </div>\n                    "

/-- Try-block of the second getRecipes variant (src/script.js lines 242-352):
the analyze fetch through the retry helper, the ok-test OUTSIDE the retried
operation, the `result.success && result.ingredients` test (a present empty
array is truthy), then the recipes fetch through the retry helper and its
checks.  Result: the output html or the thrown message, plus the number of
fetch invocations against each endpoint.  The intermediate ingredient render
and button-label change (lines 270-281) are overwritten on every subsequent
path before the interaction ends, so only the final output is recorded.  The
`none` arms model reading `.ok` of `undefined` (impossible for the literal
retry count 3). -/
def tryBody2 (aTrace : Nat → Except String (HttpResponse AnalyzeResult))
    (rTrace : Nat → Except String (HttpResponse RecipesResult))
    (jit : Nat → ℚ) : Except String String × Nat × Nat :=
  let b := withExponentialBackoff aTrace jit 3
  match b.1 with
  | none => (.error "TypeError", b.2.1, 0)
  | some (.error e) => (.error e, b.2.1, 0)
  | some (.ok response) =>
    if response.ok = false then
      (.error ("Backend call failed: " ++ response.statusText), b.2.1, 0)
    else
      match response.jsonBody with
      | none => (.error "Unexpected end of JSON input", b.2.1, 0)
      | some result =>
        if result.success = true ∧ result.ingredients.isSome = true then
          let ingredientsList := result.ingredients.getD []
          if ingredientsList.length = 0 then (.ok noIngredientsMsg2, b.2.1, 0)
          else
            let rb := withExponentialBackoff rTrace jit 3
            match rb.1 with
            | none => (.error "TypeError", b.2.1, rb.2.1)
            | some (.error e) => (.error e, b.2.1, rb.2.1)
            | some (.ok recipesResponse) =>
              if recipesResponse.ok = false then
                (.error ("Recipe fetch failed: " ++ recipesResponse.statusText), b.2.1, rb.2.1)
              else
                match recipesResponse.jsonBody with
                | none => (.error "Unexpected end of JSON input", b.2.1, rb.2.1)
                | some recipesResult =>
                  if recipesResult.success = true ∧ recipesResult.recipes.isSome = true then
                    let recipes := recipesResult.recipes.getD []
                    if recipes.length = 0 then
                      (.ok (noRecipesHTML ingredientsList), b.2.1, rb.2.1)
                    else
                      (.ok (recipesSuccessHTML ingredientsList recipes recipesResult.total_found),
                        b.2.1, rb.2.1)
                  else (.error (jsOr recipesResult.error "Failed to get recipes"), b.2.1, rb.2.1)
        else (.error (jsOr result.error "Unknown error from backend"), b.2.1, 0)

/-- Embedding of the second getRecipes variant (src/script.js lines 210-361,
the structured ingredients-then-recipes flow with both fetches wrapped by the
retry helper).  Validation happens before the loading state; after it every
path runs the try/catch body and then the finally block, which re-enables the
button and restores the label exactly once. -/
def getRecipes2 (s0 : UIState) (promptRaw : String) (hasImage : Bool)
    (aTrace : Nat → Except String (HttpResponse AnalyzeResult))
    (rTrace : Nat → Except String (HttpResponse RecipesResult))
    (jit : Nat → ℚ) : UIState × InteractionEffects :=
  let prompt := jsTrim promptRaw.data
  if prompt = [] ∧ hasImage = false then
    (⟨warn2, s0.buttonDisabled, s0.buttonLabel⟩, ⟨0, 0, false, 0⟩)
  else
    let t := tryBody2 aTrace rTrace jit
    let finalOutput :=
      match t.1 with
      | .ok html => html
      | .error msg => errorBlock2 msg
    (⟨finalOutput, false, "Get Recipes"⟩, ⟨t.2.1, t.2.2, true, 1⟩)

/-! ### Support lemmas: substrings -/

lemma startsWithL_iff : ∀ pat l : List Char, startsWithL pat l = true ↔ ∃ t, l = pat ++ t := by
  intro pat
  induction pat with
  | nil => intro l; simp [startsWithL]
  | cons p ps ih =>
    intro l
    cases l with
    | nil => simp [startsWithL]
    | cons c cs =>
      simp only [startsWithL, Bool.and_eq_true, beq_iff_eq, ih cs]
      constructor
      · rintro ⟨rfl, t, rfl⟩
        exact ⟨t, rfl⟩
      · rintro ⟨t, ht⟩
        injection ht with h1 h2
        exact ⟨h1.symm, t, h2⟩

lemma containsL_iff (pat l : List Char) :
    containsL pat l = true ↔ ∃ a b, l = a ++ (pat ++ b) := by
  induction l with
  | nil =>
    rw [containsL, startsWithL_iff]
    constructor
    · rintro ⟨t, ht⟩
      exact ⟨[], t, by simpa using ht⟩
    · rintro ⟨a, b, hab⟩
      obtain ⟨ha, hb⟩ := List.append_eq_nil.mp hab.symm
      exact ⟨b, by simp [hb.symm]⟩
  | cons c cs ih =>
    rw [containsL, Bool.or_eq_true, startsWithL_iff, ih]
    constructor
    · rintro (⟨t, ht⟩ | ⟨a, b, hab⟩)
      · exact ⟨[], t, by simpa using ht⟩
      · exact ⟨c :: a, b, by simp [hab]⟩
    · rintro ⟨a, b, hab⟩
      cases a with
      | nil => exact Or.inl ⟨b, by simpa using hab⟩
      | cons x xs =>
        injection hab with h1 h2
        exact Or.inr ⟨xs, b, h2⟩

lemma containsL_of (pat a b : List Char) : containsL pat (a ++ (pat ++ b)) = true :=
  (containsL_iff pat _).2 ⟨a, b, rfl⟩

lemma substrB_append_of_left (pat s t : String) (h : substrB pat s = true) :
    substrB pat (s ++ t) = true := by
  unfold substrB at h ⊢
  obtain ⟨a, b, hab⟩ := (containsL_iff _ _).1 h
  refine (containsL_iff _ _).2 ⟨a, b ++ t.data, ?_⟩
  rw [String.data_append, hab]
  simp [List.append_assoc]

lemma substrB_append_of_right (pat s t : String) (h : substrB pat t = true) :
    substrB pat (s ++ t) = true := by
  unfold substrB at h ⊢
  obtain ⟨a, b, hab⟩ := (containsL_iff _ _).1 h
  refine (containsL_iff _ _).2 ⟨s.data ++ a, b, ?_⟩
  rw [String.data_append, hab]
  simp [List.append_assoc]

lemma substrB_refl (pat : String) : substrB pat pat = true := by
  unfold substrB
  exact (containsL_iff _ _).2 ⟨[], [], by simp⟩

lemma substrB_mid (x pat y : String) : substrB pat (x ++ pat ++ y) = true := by
  exact substrB_append_of_left _ _ _ (substrB_append_of_right _ _ _ (substrB_refl pat))

lemma substrB_trans (a b c : String) (h1 : substrB a b = true) (h2 : substrB b c = true) :
    substrB a c = true := by
  unfold substrB at h1 h2 ⊢
  obtain ⟨u, v, huv⟩ := (containsL_iff _ _).1 h1
  obtain ⟨x, y, hxy⟩ := (containsL_iff _ _).1 h2
  refine (containsL_iff _ _).2 ⟨x ++ u, v ++ y, ?_⟩
  rw [hxy, huv]
  simp [List.append_assoc]

lemma substrB_joinAll (x : String) (l : List String) (h : x ∈ l) :
    substrB x (joinAll l) = true := by
  induction l with
  | nil => simp at h
  | cons s ss ih =>
    rw [joinAll]
    rcases List.mem_cons.1 h with rfl | hmem
    · exact substrB_append_of_left _ _ _ (substrB_refl x)
    · exact substrB_append_of_right _ _ _ (ih hmem)

lemma cardsFrom_mem : ∀ (rs : List Recipe) (s i : Nat) (hi : i < rs.length),
    recipeCard (s + i) (rs.get ⟨i, hi⟩) ∈ cardsFrom s rs := by
  intro rs
  induction rs with
  | nil => intro s i hi; simp at hi
  | cons r rest ih =>
    intro s i hi
    cases i with
    | zero => simp [cardsFrom]
    | succ j =>
      have hj : j < rest.length := by simpa using hi
      have hmem := ih (s + 1) j hj
      rw [show s + (j + 1) = s + 1 + j from by omega]
      exact List.mem_cons_of_mem _ (by simpa using hmem)

/-- The prefix of a recipe card up to the indexed title. -/
def cardPre : String :=
  "\n                            <div class=\"border border-gray-200 rounded-lg p-4 bg-white shadow-sm\">\n                                <h4 class=\"text-lg font-semibold text-blue-700 mb-2\">"

/-- The suffix of a recipe card after the indexed title. -/
def cardRest (r : Recipe) : String :=
  let recipeIngredients := r.ingredients.getD []
  let ingredientsListHTML :=
    joinAll ((recipeIngredients.take 8).map
      (fun ing => "<li class=\"text-sm text-gray-600\">• " ++ ing ++ "</li>"))
  let moreCount : Nat :=
    if recipeIngredients.length > 8 then recipeIngredients.length - 8 else 0
  "</h4>\n                                <ul class=\"space-y-1\">\n                                    "
    ++ ingredientsListHTML
    ++ "\n                                    "
    ++ (if moreCount > 0 then
          "<li class=\"text-sm text-gray-500 italic\">+ " ++ toString moreCount
            ++ " more ingredients</li>"
        else "")
    ++ "\n                                </ul>\n                            </div>\n                        "

lemma recipeCard_decomp (idx : Nat) (r : Recipe) :
    recipeCard idx r = cardPre ++ (toString (idx + 1) ++ ". " ++ r.title) ++ cardRest r := by
  simp [recipeCard, cardPre, cardRest, String.append_assoc]

lemma recipeCard_strip (idx : Nat) (r : Recipe) :
    recipeCard idx ⟨r.title, r.ingredients, []⟩ = recipeCard idx r := rfl

lemma cardsFrom_strip : ∀ (rs : List Recipe) (s : Nat),
    cardsFrom s (rs.map (fun r => ⟨r.title, r.ingredients, []⟩)) = cardsFrom s rs := by
  intro rs
  induction rs with
  | nil => intro s; rfl
  | cons r rest ih => intro s; simp [cardsFrom, ih, recipeCard_strip]

/-! ### Support lemmas: the retry loop -/

lemma backoffLoop_one (fn : Nat → Except ε α) (jit : Nat → ℚ) (i : Nat) :
    backoffLoop fn jit i 1 =
      (match fn i with
       | .ok v => (some (.ok v), 1, [])
       | .error e => (some (.error e), 1, [])) := rfl

lemma backoffLoop_two (fn : Nat → Except ε α) (jit : Nat → ℚ) (i n : Nat) :
    backoffLoop fn jit i (n + 2) =
      (match fn i with
       | .ok v => (some (.ok v), 1, [])
       | .error _ =>
         ((backoffLoop fn jit (i + 1) (n + 1)).1,
          (backoffLoop fn jit (i + 1) (n + 1)).2.1 + 1,
          ((2 : ℚ) ^ i * 1000 + jit i) :: (backoffLoop fn jit (i + 1) (n + 1)).2.2)) := rfl

lemma backoffLoop_allFail (fn : Nat → Except ε α) (jit : Nat → ℚ) (e : Nat → ε)
    (hfail : ∀ k, fn k = .error (e k)) :
    ∀ n, 1 ≤ n → ∀ i, (backoffLoop fn jit i n).1 = some (.error (e (i + n - 1)))
      ∧ (backoffLoop fn jit i n).2.1 = n := by
  intro n
  induction n with
  | zero => intro h; exact absurd h (by omega)
  | succ m ih =>
    intro _ i
    cases m with
    | zero =>
      rw [backoffLoop_one, hfail i]
      exact ⟨by simp, rfl⟩
    | succ k =>
      have hih := ih (by omega) (i + 1)
      rw [show k + 1 + 1 = k + 2 from rfl, backoffLoop_two, hfail i]
      refine ⟨?_, ?_⟩
      · rw [show i + (k + 2) - 1 = i + 1 + (k + 1) - 1 from by omega]
        exact hih.1
      · rw [hih.2]

lemma backoffLoop_succAt (fn : Nat → Except ε α) (jit : Nat → ℚ) (e : Nat → ε) (v : α) :
    ∀ m i n, m < n → (∀ k, k < m → fn (i + k) = .error (e (i + k))) → fn (i + m) = .ok v →
    backoffLoop fn jit i n = (some (.ok v), m + 1,
      (List.range' i m).map (fun k => (2 : ℚ) ^ k * 1000 + jit k)) := by
  intro m
  induction m with
  | zero =>
    intro i n hn hf hok
    simp only [Nat.add_zero] at hok
    match n, hn with
    | 1, _ => rw [backoffLoop_one, hok]; simp [List.range']
    | (k + 2), _ => rw [backoffLoop_two, hok]; simp [List.range']
  | succ m ih =>
    intro i n hn hf hok
    match n, hn with
    | (k + 2), hn =>
      have hf0 : fn i = .error (e i) := by simpa using hf 0 (by omega)
      have hrest := ih (i + 1) (k + 1) (by omega)
        (fun j hj => by
          have := hf (j + 1) (by omega)
          rwa [show i + (j + 1) = i + 1 + j from by omega] at this)
        (by rwa [show i + (m + 1) = i + 1 + m from by omega] at hok)
      rw [backoffLoop_two, hf0, hrest]
      simp [List.range']

lemma delay_mono (jit : Nat → ℚ) (hjit : ∀ i, 0 ≤ jit i ∧ jit i < 1000) (s : Nat) :
    (2 : ℚ) ^ s * 1000 + jit s ≤ (2 : ℚ) ^ (s + 1) * 1000 + jit (s + 1) := by
  have h1 : (1 : ℚ) ≤ 2 ^ s := one_le_pow₀ (by norm_num)
  have h2 := (hjit s).2
  have h3 := (hjit (s + 1)).1
  rw [pow_succ]
  nlinarith

lemma delay_chain (jit : Nat → ℚ) (hjit : ∀ i, 0 ≤ jit i ∧ jit i < 1000) :
    ∀ m s, List.Chain' (· ≤ ·)
      ((List.range' s m).map (fun k => (2 : ℚ) ^ k * 1000 + jit k)) := by
  intro m
  induction m with
  | zero => intro s; simp
  | succ m ih =>
    intro s
    cases m with
    | zero => simp [List.range']
    | succ m2 =>
      rw [show List.range' s (m2 + 1 + 1) = s :: (s + 1) :: List.range' (s + 2) m2 from rfl]
      rw [List.map_cons, List.map_cons, List.chain'_cons]
      refine ⟨delay_mono jit hjit s, ?_⟩
      have := ih (s + 1)
      rwa [show List.range' (s + 1) (m2 + 1) = (s + 1) :: List.range' (s + 2) m2 from rfl,
        List.map_cons] at this

lemma backoff3_ok (fn : Nat → Except ε α) (jit : Nat → ℚ) (v : α) (h : fn 0 = .ok v) :
    withExponentialBackoff fn jit 3 = (some (.ok v), 1, []) := by
  rw [withExponentialBackoff, show (3 : Int).toNat = 1 + 2 from rfl, backoffLoop_two, h]

/-! ### Concrete sample values used by witnesses and counterexamples -/

def ui0 : UIState := ⟨"", false, "Get Recipes"⟩

def jit0 : Nat → ℚ := fun _ => 0

def aTraceNetFail : Nat → Except String (HttpResponse AnalyzeResult) :=
  fun _ => .error "Failed to fetch"

def rTraceNetFail : Nat → Except String (HttpResponse RecipesResult) :=
  fun _ => .error "Failed to fetch"

def fetchV1Fail : Except String (HttpResponse AnalyzeBody) := .error "Failed to fetch"

def resp500 : HttpResponse AnalyzeResult := ⟨false, 500, "Internal Server Error", none⟩

def vRespMissingData : HttpResponse AnalyzeBody := ⟨true, 200, "OK", some ⟨true, none, none⟩⟩

def fnFailThenOk : Nat → Except String Nat :=
  fun i => if i = 0 then .error "e0" else .ok 42

def recipeNine : Recipe :=
  ⟨"Garden Soup", some ["i1", "i2", "i3", "i4", "i5", "i6", "i7", "i8", "i9"],
    ["Step one: chop everything"]⟩

def aRespTomato : HttpResponse AnalyzeResult := ⟨true, 200, "OK", some ⟨true, some ["tomato"], none⟩⟩

def rRespNine : HttpResponse RecipesResult := ⟨true, 200, "OK", some ⟨true, some [recipeNine], some 7, none⟩⟩

/-- The final output of a full success interaction whose recipes response
holds one recipe with nine ingredients and one instruction step. -/
def c9out : String :=
  (getRecipes2 ui0 "veg" false (fun _ => .ok aRespTomato) (fun _ => .ok rRespNine) jit0).1.output

/-! ### Claim theorems -/

/-- C2 (evaluation at the failing input): both renderers turn every starred
line into a list-item element, but neither ever wraps them in a list
container — the wrapping patterns demand a literal attribute-free li tag
which the item substitutions never emit (the code's own comment says it wraps
list items in ul tags).  `render("* a\n* b")` yields two bare item elements
(and `markdownToHtml` additionally wraps each in a paragraph), with no list
container anywhere. -/
theorem c2_list_wrap_never_fires :
    simpleMarkdownToHtml "* a\n* b" = "<li class=\"ml-6\">a</li>\n<li class=\"ml-6\">b</li>" ∧
    substrB "<ul" (simpleMarkdownToHtml "* a\n* b") = false ∧
    markdownToHtml "* a\n* b"
      = "<p><li class=\"list-disc ml-6\">a</li></p>\n<p><li class=\"list-disc ml-6\">b</li></p>" ∧
    substrB "<ul" (markdownToHtml "* a\n* b") = false := by
  refine ⟨?_, ?_, ?_, ?_⟩ <;> rfl

/-- C3: when the operation fails on every attempt and maxAttempts is a
positive integer N, withExponentialBackoff invokes the operation exactly N
times and the overall call fails with the operation's final error, propagated
to the caller unchanged. -/
theorem c3_backoff_all_fail {ε α : Type} (fn : Nat → Except ε α) (jit : Nat → ℚ)
    (e : Nat → ε) (N : Nat) (hN : 1 ≤ N) (hfail : ∀ k, fn k = .error (e k)) :
    (withExponentialBackoff fn jit (N : Int)).1 = some (.error (e (N - 1))) ∧
    (withExponentialBackoff fn jit (N : Int)).2.1 = N := by
  have h := backoffLoop_allFail fn jit e hfail N hN 0
  rw [withExponentialBackoff, Int.toNat_natCast]
  simpa using h

/-- Witness for c3_backoff_all_fail: a constantly failing operation under the
default three attempts. -/
theorem c3_backoff_all_fail_witness :
    (withExponentialBackoff (fun _ => (Except.error "boom" : Except String Nat)) jit0
        ((3 : Nat) : Int)).1 = some (.error "boom") ∧
    (withExponentialBackoff (fun _ => (Except.error "boom" : Except String Nat)) jit0
        ((3 : Nat) : Int)).2.1 = 3 :=
  c3_backoff_all_fail (fun _ => (Except.error "boom" : Except String Nat)) jit0
    (fun _ => "boom") 3 (by decide) (fun _ => rfl)

/-- C4: when the operation fails on attempts 1..N-1 and succeeds on attempt N
with N at most maxAttempts, withExponentialBackoff succeeds with the
operation's result after exactly N sequential invocations, sleeping
1000·2^i ms plus the bounded random jitter after failed attempt i
(0-indexed), a monotonically non-decreasing delay sequence. -/
theorem c4_backoff_eventual_success {ε α : Type} (fn : Nat → Except ε α) (jit : Nat → ℚ)
    (e : Nat → ε) (v : α) (N M : Nat) (hN : 1 ≤ N) (hNM : N ≤ M)
    (hfail : ∀ k, k < N - 1 → fn k = .error (e k)) (hok : fn (N - 1) = .ok v)
    (hjit : ∀ i, 0 ≤ jit i ∧ jit i < 1000) :
    withExponentialBackoff fn jit (M : Int) = (some (.ok v), N,
      (List.range (N - 1)).map (fun k => (2 : ℚ) ^ k * 1000 + jit k)) ∧
    List.Chain' (· ≤ ·) ((List.range (N - 1)).map (fun k => (2 : ℚ) ^ k * 1000 + jit k)) := by
  have h := backoffLoop_succAt fn jit e v (N - 1) 0 M (by omega)
      (fun k hk => by simpa using hfail k hk) (by simpa using hok)
  constructor
  · rw [withExponentialBackoff, Int.toNat_natCast, List.range_eq_range', h,
      show N - 1 + 1 = N from by omega]
  · rw [List.range_eq_range']
    exact delay_chain jit hjit (N - 1) 0

/-- Witness for c4_backoff_eventual_success: failure then success under three
allowed attempts, with zero jitter. -/
theorem c4_backoff_eventual_success_witness :
    withExponentialBackoff fnFailThenOk jit0 ((3 : Nat) : Int) = (some (.ok 42), 2,
      (List.range 1).map (fun k => (2 : ℚ) ^ k * 1000 + jit0 k)) ∧
    List.Chain' (· ≤ ·) ((List.range 1).map (fun k => (2 : ℚ) ^ k * 1000 + jit0 k)) :=
  c4_backoff_eventual_success fnFailThenOk jit0 (fun _ => "e0") 42 2 3 (by decide) (by decide)
    (fun k hk => by
      have : k = 0 := by omega
      subst this
      rfl)
    rfl
    (fun i => ⟨le_refl 0, by norm_num [jit0]⟩)

/-- C10: calling withExponentialBackoff with a non-positive maxRetries never
invokes the operation and resolves with the undefined result (no error): the
loop body is skipped. -/
theorem c10_nonpositive_retries_noop {ε α : Type} (fn : Nat → Except ε α) (jit : Nat → ℚ)
    (M : Int) (hM : M ≤ 0) :
    withExponentialBackoff fn jit M = (none, 0, []) := by
  rw [withExponentialBackoff, Int.toNat_of_nonpos hM]
  rfl

/-- Witness for c10_nonpositive_retries_noop at maxRetries = -2. -/
theorem c10_nonpositive_retries_noop_witness :
    withExponentialBackoff (fun _ => (Except.error "boom" : Except String Nat)) jit0 (-2)
      = (none, 0, []) :=
  c10_nonpositive_retries_noop (fun _ => (Except.error "boom" : Except String Nat)) jit0 (-2)
    (by decide)

/-- C5: when the trimmed prompt is empty and no image is selected, both
getRecipes variants render the validation warning and return before touching
the button: no fetch happens and the loading state is never entered. -/
theorem c5_validation_blocks_network (s0 : UIState) (promptRaw : String)
    (aTrace : Nat → Except String (HttpResponse AnalyzeResult))
    (rTrace : Nat → Except String (HttpResponse RecipesResult))
    (jit : Nat → ℚ) (fetchV1 : Except String (HttpResponse AnalyzeBody))
    (h : jsTrim promptRaw.data = []) :
    getRecipes2 s0 promptRaw false aTrace rTrace jit
      = (⟨warn2, s0.buttonDisabled, s0.buttonLabel⟩, ⟨0, 0, false, 0⟩) ∧
    getRecipesV1 s0 promptRaw false fetchV1
      = (⟨warnV1, s0.buttonDisabled, s0.buttonLabel⟩, ⟨0, 0, false, 0⟩) := by
  constructor <;> simp [getRecipes2, getRecipesV1, h]

/-- Witness for c5_validation_blocks_network: a whitespace-only prompt and no
image. -/
theorem c5_validation_blocks_network_witness :
    getRecipes2 ui0 "   " false aTraceNetFail rTraceNetFail jit0
      = (⟨warn2, ui0.buttonDisabled, ui0.buttonLabel⟩, ⟨0, 0, false, 0⟩) ∧
    getRecipesV1 ui0 "   " false fetchV1Fail
      = (⟨warnV1, ui0.buttonDisabled, ui0.buttonLabel⟩, ⟨0, 0, false, 0⟩) :=
  c5_validation_blocks_network ui0 "   " aTraceNetFail rTraceNetFail jit0 fetchV1Fail (by decide)

/-- C6: once validation passes (so the loading state is entered), every exit
path of either getRecipes variant — success or any failure, whatever the
fetch outcomes — clears the loading state exactly once: the button ends
re-enabled with its default label restored. -/
theorem c6_loading_cleared_once (s0 : UIState) (promptRaw : String) (hasImage : Bool)
    (aTrace : Nat → Except String (HttpResponse AnalyzeResult))
    (rTrace : Nat → Except String (HttpResponse RecipesResult))
    (jit : Nat → ℚ) (fetchV1 : Except String (HttpResponse AnalyzeBody))
    (h : ¬(jsTrim promptRaw.data = [] ∧ hasImage = false)) :
    ((getRecipes2 s0 promptRaw hasImage aTrace rTrace jit).2.loadingEntered = true ∧
     (getRecipes2 s0 promptRaw hasImage aTrace rTrace jit).2.loadingCleared = 1 ∧
     (getRecipes2 s0 promptRaw hasImage aTrace rTrace jit).1.buttonDisabled = false ∧
     (getRecipes2 s0 promptRaw hasImage aTrace rTrace jit).1.buttonLabel = "Get Recipes") ∧
    ((getRecipesV1 s0 promptRaw hasImage fetchV1).2.loadingEntered = true ∧
     (getRecipesV1 s0 promptRaw hasImage fetchV1).2.loadingCleared = 1 ∧
     (getRecipesV1 s0 promptRaw hasImage fetchV1).1.buttonDisabled = false ∧
     (getRecipesV1 s0 promptRaw hasImage fetchV1).1.buttonLabel = "Get Recipes") := by
  refine ⟨⟨?_, ?_, ?_, ?_⟩, ⟨?_, ?_, ?_, ?_⟩⟩ <;> simp [getRecipes2, getRecipesV1, h]

/-- Witness for c6_loading_cleared_once: a non-empty prompt with failing
network traces. -/
theorem c6_loading_cleared_once_witness :
    ((getRecipes2 ui0 "x" false aTraceNetFail rTraceNetFail jit0).2.loadingEntered = true ∧
     (getRecipes2 ui0 "x" false aTraceNetFail rTraceNetFail jit0).2.loadingCleared = 1 ∧
     (getRecipes2 ui0 "x" false aTraceNetFail rTraceNetFail jit0).1.buttonDisabled = false ∧
     (getRecipes2 ui0 "x" false aTraceNetFail rTraceNetFail jit0).1.buttonLabel = "Get Recipes") ∧
    ((getRecipesV1 ui0 "x" false fetchV1Fail).2.loadingEntered = true ∧
     (getRecipesV1 ui0 "x" false fetchV1Fail).2.loadingCleared = 1 ∧
     (getRecipesV1 ui0 "x" false fetchV1Fail).1.buttonDisabled = false ∧
     (getRecipesV1 ui0 "x" false fetchV1Fail).1.buttonLabel = "Get Recipes") :=
  c6_loading_cleared_once ui0 "x" false aTraceNetFail rTraceNetFail jit0 fetchV1Fail
    (by decide)

/-- C8: when the analyze call succeeds with a present but empty ingredients
array, the interaction renders the no-ingredients message and terminates: the
recipes endpoint is never fetched, and the loading state is still cleared
once. -/
theorem c8_empty_ingredients_terminates (s0 : UIState) (pr : String)
    (aTrace : Nat → Except String (HttpResponse AnalyzeResult))
    (rTrace : Nat → Except String (HttpResponse RecipesResult))
    (jit : Nat → ℚ) (resp : HttpResponse AnalyzeResult) (body : AnalyzeResult)
    (ha : aTrace 0 = .ok resp) (hok : resp.ok = true) (hj : resp.jsonBody = some body)
    (hs : body.success = true) (hi : body.ingredients = some []) :
    (getRecipes2 s0 pr true aTrace rTrace jit).1.output = noIngredientsMsg2 ∧
    (getRecipes2 s0 pr true aTrace rTrace jit).2.recipesFetches = 0 ∧
    (getRecipes2 s0 pr true aTrace rTrace jit).2.loadingCleared = 1 := by
  have hb := backoff3_ok aTrace jit resp ha
  refine ⟨?_, ?_, ?_⟩ <;> simp [getRecipes2, tryBody2, hb, hok, hj, hs, hi]

/-- Witness for c8_empty_ingredients_terminates: a successful analyze
response carrying an empty ingredients array. -/
theorem c8_empty_ingredients_terminates_witness :
    (getRecipes2 ui0 "x" true (fun _ => .ok ⟨true, 200, "OK", some ⟨true, some [], none⟩⟩)
        rTraceNetFail jit0).1.output = noIngredientsMsg2 ∧
    (getRecipes2 ui0 "x" true (fun _ => .ok ⟨true, 200, "OK", some ⟨true, some [], none⟩⟩)
        rTraceNetFail jit0).2.recipesFetches = 0 ∧
    (getRecipes2 ui0 "x" true (fun _ => .ok ⟨true, 200, "OK", some ⟨true, some [], none⟩⟩)
        rTraceNetFail jit0).2.loadingCleared = 1 :=
  c8_empty_ingredients_terminates ui0 "x"
    (fun _ => .ok ⟨true, 200, "OK", some ⟨true, some [], none⟩⟩) rTraceNetFail jit0
    ⟨true, 200, "OK", some ⟨true, some [], none⟩⟩ ⟨true, some [], none⟩ rfl rfl rfl rfl rfl

/-- C1 counterexample: when every analyze fetch completes with an HTTP 500
response, the retry helper performs exactly ONE fetch (the wrapped operation
resolved, since a non-2xx response does not reject fetch) and the failure is
raised by the ok-test outside the helper; an actual network failure is
fetched three times.  A non-2xx status therefore does not trigger the same
retry behaviour as a network failure. -/
theorem c1_non2xx_not_retried_cex :
    (getRecipes2 ui0 "chicken" false (fun _ => .ok resp500) rTraceNetFail jit0).2.analyzeFetches
      = 1 ∧
    (getRecipes2 ui0 "chicken" false aTraceNetFail rTraceNetFail jit0).2.analyzeFetches = 3 ∧
    (getRecipes2 ui0 "chicken" false (fun _ => .ok resp500) rTraceNetFail jit0).1.output
      = errorBlock2 "Backend call failed: Internal Server Error" := by
  refine ⟨?_, ?_, ?_⟩ <;> rfl

/-- C1 (amended): only rejections of the wrapped fetch are retried.  A
response with non-2xx status completes the wrapped operation on the first
attempt — the retry helper returns it after one invocation and the status
check outside the helper raises the failure without any retry — whereas a
network failure (a rejection) is retried up to the three attempts. -/
theorem c1_only_rejections_retried (s0 : UIState) (pr : String)
    (resp : HttpResponse AnalyzeResult)
    (aTrace : Nat → Except String (HttpResponse AnalyzeResult))
    (rTrace : Nat → Except String (HttpResponse RecipesResult))
    (jit : Nat → ℚ) (netErr : String)
    (hok : resp.ok = false) (ha : aTrace 0 = .ok resp) :
    ((getRecipes2 s0 pr true aTrace rTrace jit).2.analyzeFetches = 1 ∧
     (getRecipes2 s0 pr true aTrace rTrace jit).1.output
       = errorBlock2 ("Backend call failed: " ++ resp.statusText)) ∧
    (getRecipes2 s0 pr true (fun _ => .error netErr) rTrace jit).2.analyzeFetches = 3 := by
  have hb := backoff3_ok aTrace jit resp ha
  have hfail := backoffLoop_allFail
    (fun _ => (.error netErr : Except String (HttpResponse AnalyzeResult))) jit
    (fun _ => netErr) (fun _ => rfl) 3 (by omega) 0
  refine ⟨⟨?_, ?_⟩, ?_⟩
  · simp [getRecipes2, tryBody2, hb, hok]
  · simp [getRecipes2, tryBody2, hb, hok]
  · have h3 : ((3 : Int)).toNat = 3 := rfl
    simp [getRecipes2, tryBody2, withExponentialBackoff, h3, hfail.1, hfail.2]

/-- Witness for c1_only_rejections_retried at the 500 response and a network
failure trace. -/
theorem c1_only_rejections_retried_witness :
    ((getRecipes2 ui0 "x" true (fun _ => .ok resp500) rTraceNetFail jit0).2.analyzeFetches = 1 ∧
     (getRecipes2 ui0 "x" true (fun _ => .ok resp500) rTraceNetFail jit0).1.output
       = errorBlock2 ("Backend call failed: " ++ resp500.statusText)) ∧
    (getRecipes2 ui0 "x" true (fun _ => .error "Failed to fetch") rTraceNetFail jit0).2.analyzeFetches
      = 3 :=
  c1_only_rejections_retried ui0 "x" resp500 (fun _ => .ok resp500) rTraceNetFail jit0
    "Failed to fetch" rfl rfl

/-- C7 counterexample: an OK analyze response whose body has success true but
carries none of the expected result fields is rendered as a SUCCESS — the
free-text variant substitutes the fallback text and renders it through the
success path (no error block appears), refuting the claim that submitAnalysis
fails exactly when the expected fields are absent. -/
theorem c7_missing_fields_rendered_as_success_cex :
    (getRecipesV1 ui0 "chicken" false (.ok vRespMissingData)).1.output
      = "<div class=\"prose max-w-none\"><p class=\"mb-2\">No analysis returned</p></div>" ∧
    substrB "❌ Error:" (getRecipesV1 ui0 "chicken" false (.ok vRespMissingData)).1.output
      = false := by
  refine ⟨?_, ?_⟩ <;> rfl

/-- C7 (amended): submitAnalysis fails when the HTTP status is not success or
when success is false; the structured variant also fails when the ingredients
field is absent, but in the free-text variant a successful response missing
the nested analysis payload is NOT a failure — the fallback text is rendered
as a success. -/
theorem c7_backend_error_conditions (s0 : UIState) (pr : String)
    (rTrace : Nat → Except String (HttpResponse RecipesResult)) (jit : Nat → ℚ)
    (resp : HttpResponse AnalyzeResult) (body : AnalyzeResult)
    (respB : HttpResponse AnalyzeBody) (bodyB : AnalyzeBody) :
    (resp.ok = false → ∀ aTrace, aTrace 0 = .ok resp →
      (getRecipes2 s0 pr true aTrace rTrace jit).1.output
        = errorBlock2 ("Backend call failed: " ++ resp.statusText)) ∧
    (resp.ok = true → resp.jsonBody = some body → body.success = false →
      ∀ aTrace, aTrace 0 = .ok resp →
      (getRecipes2 s0 pr true aTrace rTrace jit).1.output
        = errorBlock2 (jsOr body.error "Unknown error from backend")) ∧
    (resp.ok = true → resp.jsonBody = some body → body.success = true →
      body.ingredients = none → ∀ aTrace, aTrace 0 = .ok resp →
      (getRecipes2 s0 pr true aTrace rTrace jit).1.output
        = errorBlock2 (jsOr body.error "Unknown error from backend")) ∧
    (respB.ok = true → respB.jsonBody = some bodyB → bodyB.success = true →
      bodyB.data = none →
      (getRecipesV1 s0 pr true (.ok respB)).1.output
        = "<div class=\"prose max-w-none\"><p class=\"mb-2\">No analysis returned</p></div>") := by
  refine ⟨?_, ?_, ?_, ?_⟩
  · intro hok aTrace ha
    have hb := backoff3_ok aTrace jit resp ha
    simp [getRecipes2, tryBody2, hb, hok]
  · intro hok hj hs aTrace ha
    have hb := backoff3_ok aTrace jit resp ha
    simp [getRecipes2, tryBody2, hb, hok, hj, hs]
  · intro hok hj hs hing aTrace ha
    have hb := backoff3_ok aTrace jit resp ha
    simp [getRecipes2, tryBody2, hb, hok, hj, hs, hing]
  · intro hokB hjB hsB hdB
    simp only [getRecipesV1, hokB, hjB, hsB, extractAnalysis, hdB, truthyStr]
    simp
    rfl

/-- Witness for c7_backend_error_conditions: the free-text clause at a
concrete OK response with success true and no data object. -/
theorem c7_backend_error_conditions_witness :
    (getRecipesV1 ui0 "x" true (.ok vRespMissingData)).1.output
      = "<div class=\"prose max-w-none\"><p class=\"mb-2\">No analysis returned</p></div>" :=
  (c7_backend_error_conditions ui0 "x" rTraceNetFail jit0 resp500 ⟨true, none, none⟩
    vRespMissingData ⟨true, none, none⟩).2.2.2 rfl rfl rfl rfl

/-- C9 counterexample: a successful interaction whose one recipe has nine
ingredients and an instruction list renders its indexed title and its first
eight ingredients, but NOT the ninth ingredient and NOT the instruction text
— instead a more-count note appears, refuting the claim that the full
ingredient list and the instruction list are rendered. -/
theorem c9_full_lists_not_rendered_cex :
    substrB "1. Garden Soup" c9out = true ∧
    substrB "i8" c9out = true ∧
    substrB "i9" c9out = false ∧
    substrB "Step one: chop everything" c9out = false ∧
    substrB "+ 1 more ingredients" c9out = true := by
  refine ⟨?_, ?_, ?_, ?_, ?_⟩ <;> rfl

/-- C9 (amended): for every non-empty recipe set the success interaction
renders the builder output exactly; that output is unchanged if every
recipe's instructions are removed (instructions are never rendered); each
recipe's title appears prefixed with its 1-based index in input order; and
each of the first 8 ingredients of a recipe appears as a rendered item in
that recipe's card (only the first 8 are listed; a longer list is summarised
by a more-count note). -/
theorem c9_rendering_amended (s0 : UIState) (pr : String) (jit : Nat → ℚ)
    (ingr : List String) (rs : List Recipe) (tf : Option Int)
    (aResp : HttpResponse AnalyzeResult) (rResp : HttpResponse RecipesResult)
    (aTrace : Nat → Except String (HttpResponse AnalyzeResult))
    (rTrace : Nat → Except String (HttpResponse RecipesResult))
    (hing : ingr ≠ []) (hrs : rs ≠ [])
    (ha : aTrace 0 = .ok aResp) (hr : rTrace 0 = .ok rResp)
    (haok : aResp.ok = true) (haj : aResp.jsonBody = some ⟨true, some ingr, none⟩)
    (hrok : rResp.ok = true) (hrj : rResp.jsonBody = some ⟨true, some rs, tf, none⟩) :
    (getRecipes2 s0 pr true aTrace rTrace jit).1.output = recipesSuccessHTML ingr rs tf ∧
    recipesSuccessHTML ingr (rs.map (fun r => ⟨r.title, r.ingredients, []⟩)) tf
      = recipesSuccessHTML ingr rs tf ∧
    (∀ i, ∀ hi : i < rs.length,
      substrB (toString (i + 1) ++ ". " ++ (rs.get ⟨i, hi⟩).title)
        (recipesSuccessHTML ingr rs tf) = true) ∧
    (∀ r, r ∈ rs → ∀ ing, ing ∈ (r.ingredients.getD []).take 8 → ∀ idx,
      substrB ("<li class=\"text-sm text-gray-600\">• " ++ ing ++ "</li>")
        (recipeCard idx r) = true) := by
  have hb1 := backoff3_ok aTrace jit aResp ha
  have hb2 := backoff3_ok rTrace jit rResp hr
  refine ⟨?_, ?_, ?_, ?_⟩
  · simp [getRecipes2, tryBody2, hb1, hb2, haok, haj, hrok, hrj, hing, hrs,
      List.length_eq_zero]
  · simp only [recipesSuccessHTML, cardsFrom_strip]
  · intro i hi
    have hmem := cardsFrom_mem rs 0 i hi
    rw [Nat.zero_add] at hmem
    have h1 : substrB (toString (i + 1) ++ ". " ++ (rs.get ⟨i, hi⟩).title)
        (recipeCard i (rs.get ⟨i, hi⟩)) = true := by
      rw [recipeCard_decomp]
      exact substrB_mid _ _ _
    have h2 := substrB_joinAll _ _ hmem
    have h3 := substrB_trans _ _ _ h1 h2
    rw [recipesSuccessHTML]
    apply substrB_append_of_left
    apply substrB_append_of_right
    exact h3
  · intro r hrmem ing hingmem idx
    have hitem := List.mem_map_of_mem
      (fun ing => "<li class=\"text-sm text-gray-600\">• " ++ ing ++ "</li>") hingmem
    have h1 := substrB_joinAll _ _ hitem
    rw [recipeCard_decomp]
    apply substrB_append_of_right
    rw [cardRest]
    apply substrB_append_of_left
    apply substrB_append_of_left
    apply substrB_append_of_left
    apply substrB_append_of_right
    exact h1

/-- Witness for c9_rendering_amended: the success interaction with one
detected ingredient and one recipe. -/
theorem c9_rendering_amended_witness :
    (getRecipes2 ui0 "veg" true (fun _ => .ok aRespTomato) (fun _ => .ok rRespNine) jit0).1.output
      = recipesSuccessHTML ["tomato"] [recipeNine] (some 7) :=
  (c9_rendering_amended ui0 "veg" jit0 ["tomato"] [recipeNine] (some 7) aRespTomato rRespNine
    (fun _ => .ok aRespTomato) (fun _ => .ok rRespNine)
    (by simp) (by simp) rfl rfl rfl rfl rfl rfl).1

end IngredientAnalyzer
